import Mathlib

/-!
Verification of the safe-async adapter (`src/index.js`).

The repository file `src/index.js` contains three revisions of the same
module, concatenated:

* revision A (lines 1-132): the "progress" revision — `var immediate` shim,
  `next.progress` support, `_next` delegating to `next.ok`, no `errify`;
* revision B (lines 133-271): the "errify" revision — `errify` normalization,
  three-way `_next` dispatch, no progress;
* revision C (lines 272-338): the legacy revision (bundled `q` provider).

JavaScript values are embedded shallowly as `JSVal`; an original function
body is embedded as the finite sequence of completion-handle calls it makes
plus its final result (normal return or throw); the observable behaviour of
an adapted call is the chronological list of events it produces (external
callback invocations, promise resolve/reject/progress calls, the moment the
adapted call returns to its caller, and the moment the body starts running).
The deferral performed by `immediate(invoke)` (setImmediate / nextTick) is
embedded by placing the body-execution events after the `callReturned` event
in the trace, which is exactly what the single-threaded event loop
guarantees.
-/

namespace SafeAsync

/-- JavaScript values, as far as the adapter inspects them: `typeof x ===
'function'` / `instanceof Function` distinguishes `funcv`, `instanceof
Error` distinguishes `errObj` (which carries its message/payload). -/
inductive JSVal where
  | undefv
  | nullv
  | boolv (b : Bool)
  | numv (n : Int)
  | strv (s : String)
  | funcv (id : Nat)
  | errObj (message : JSVal)
deriving Repr, DecidableEq

/-- The `typeof x === 'function'` / `x instanceof Function` test. -/
def isCallable : JSVal → Bool
  | .funcv _ => true
  | _ => false

/-- The `x instanceof Error` test. -/
def isErrorKind : JSVal → Bool
  | .errObj _ => true
  | _ => false

/-- `errify` of revision B (index.js lines 255-257) and revision C (lines
336-338): `(e instanceof Error) ? e : new Error(e)`. -/
def errify (e : JSVal) : JSVal :=
  if isErrorKind e then e else .errObj e

/-- JavaScript truthiness, as used by the spec-modelled v0.3.0 `wrap`. -/
def truthy : JSVal → Bool
  | .undefv => false
  | .nullv => false
  | .boolv b => b
  | .numv n => n != 0
  | .strv s => s != ""
  | .funcv _ => true
  | .errObj _ => true

/-- The two invocation modes of an adapted function. -/
inductive Mode where
  | callbackMode
  | promiseMode
deriving Repr, DecidableEq

/-- `arguments[arguments.length-1]`: the last positional argument, which is
`undefined` for a zero-argument call (index.js line 16). -/
def lastArg (args : List JSVal) : JSVal :=
  (args.getLast?).getD .undefv

/-- `[].slice.call(arguments, 0, arguments.length-1)` (index.js line 17):
every argument except the last, computed before the mode branch. -/
def leadingArgs (args : List JSVal) : List JSVal :=
  args.dropLast

/-- Mode selection (index.js lines 28 and 40): callback mode exactly when
the last positional argument is callable. -/
def selectMode (args : List JSVal) : Mode :=
  if isCallable (lastArg args) then .callbackMode else .promiseMode

/-- A single call the original function body makes on the completion
handle: `next.ok(...)`, `next.err(e)`, the handle itself `next(...)`, or
`next.progress(...)`. -/
inductive BodyAct where
  | okCall (vs : List JSVal)
  | errCall (v : JSVal)
  | nextCall (vs : List JSVal)
  | progressCall (vs : List JSVal)
deriving Repr, DecidableEq

/-- How an invocation of a JavaScript function ends: a normal return with a
value, or a thrown value. -/
inductive FnRes where
  | ret (v : JSVal)
  | thrown (v : JSVal)
deriving Repr, DecidableEq

/-- An original function body, embedded as the sequence of
completion-handle calls it makes followed by how it finishes. -/
structure Body where
  acts : List BodyAct
  res : FnRes
deriving Repr, DecidableEq

/-- Externally observable deliveries: an invocation of the caller-supplied
callback with an argument list, or a call to the promise provider's
resolve / reject / progress entry point. -/
inductive Delivery where
  | cbCall (args : List JSVal)
  | resolveCall (vs : List JSVal)
  | rejectCall (v : JSVal)
  | progressNotify (vs : List JSVal)
deriving Repr, DecidableEq

/-- Chronological events of one adapted call: the original body starts
executing, a delivery happens, or the adapted call returns to its caller. -/
inductive Event where
  | bodyStarted
  | deliverEv (d : Delivery)
  | callReturned
deriving Repr, DecidableEq

/-- What the adapted function returns: a plain value (callback mode) or the
synthesized promise object (promise mode). -/
inductive RetVal where
  | value (v : JSVal)
  | promiseObj
deriving Repr, DecidableEq

/-- The full effect of one adapted call: the leading arguments forwarded to
the original function, the chronological event trace, and the adapted
call's own return value. -/
structure CallEffect where
  forwarded : List JSVal
  trace : List Event
  ret : RetVal
deriving Repr, DecidableEq

/-- Events that happen strictly before the adapted call returns. -/
def preReturn (t : List Event) : List Event :=
  t.takeWhile (fun e => e != Event.callReturned)

/-- The deliveries contained in a trace, in order. -/
def deliveries (t : List Event) : List Delivery :=
  t.filterMap (fun e =>
    match e with
    | .deliverEv d => some d
    | _ => none)

namespace RevA

/-- Revision A, callback mode, one handle call to deliveries:
`next.ok` invokes the callback with `(undefined, ...arguments)` (lines
32-33); `next.err` invokes it with the raw error value (lines 30-31);
the handle itself delegates all its arguments to `next.ok` (lines 83-85);
`next.progress` is a no-op (line 34). -/
def cbDeliver : BodyAct → List Delivery
  | .okCall vs => [.cbCall (.undefv :: vs)]
  | .errCall v => [.cbCall [v]]
  | .nextCall vs => [.cbCall (.undefv :: vs)]
  | .progressCall _ => []

/-- Revision A, promise mode, one handle call to deliveries: `next.ok`
applies the provider's resolve to all arguments (line 44); `next.err`
passes the raw error value to reject (line 45); `next.progress` forwards to
the provider's third setup parameter (line 46); the handle itself delegates
to `next.ok` (lines 83-85). -/
def promDeliver : BodyAct → List Delivery
  | .okCall vs => [.resolveCall vs]
  | .errCall v => [.rejectCall v]
  | .nextCall vs => [.resolveCall vs]
  | .progressCall vs => [.progressNotify vs]

/-- `_invoke` (lines 99-113), callback wiring: run the body's handle calls
in order; a synchronous throw is caught and routed to `next.err` with the
raw thrown value (line 110). -/
def invokeCbDeliveries (b : Body) : List Delivery :=
  (b.acts.map cbDeliver).flatten ++
    (match b.res with
     | .ret _ => []
     | .thrown x => [.cbCall [x]])

/-- `_invoke`, promise wiring: as `invokeCbDeliveries` but delivering to
the provider's resolve/reject. -/
def invokePromDeliveries (b : Body) : List Delivery :=
  (b.acts.map promDeliver).flatten ++
    (match b.res with
     | .ret _ => []
     | .thrown x => [.rejectCall x])

/-- The value `invoke()` returns (lines 102, 108-111): the original
function's return value, or `undefined` when a throw was caught. -/
def invokeReturn (b : Body) : JSVal :=
  match b.res with
  | .ret v => v
  | .thrown _ => .undefv

/-- One adapted call of revision A (lines 14-50). `hasProvider` is whether
`defer.promise` is configured. Callback mode (lines 28-36): the body runs
synchronously inside the call (`return invoke()`), so its events precede
`callReturned` and the adapted call returns `invoke()`'s value. Promise
mode (lines 40-49): with no provider an `Error` is thrown synchronously
(line 41, the `Except.error`); otherwise `immediate(invoke)` schedules the
body on the event loop and the promise object is returned first, so
`callReturned` precedes every body event in the trace. In either mode the
original function receives `leadingArgs args` (line 17) followed by the
handle. -/
def adaptedCall (hasProvider : Bool) (args : List JSVal) (b : Body) :
    Except JSVal CallEffect :=
  match selectMode args with
  | .callbackMode =>
      .ok { forwarded := leadingArgs args
            trace := Event.bodyStarted ::
              (invokeCbDeliveries b).map Event.deliverEv ++ [Event.callReturned]
            ret := .value (invokeReturn b) }
  | .promiseMode =>
      if hasProvider then
        .ok { forwarded := leadingArgs args
              trace := Event.callReturned :: Event.bodyStarted ::
                (invokePromDeliveries b).map Event.deliverEv
              ret := .promiseObj }
      else
        .error (.errObj (.strv "No promises support (defer.promise not defined)"))

end RevA

namespace RevB

/-- Revision B, callback-mode `next.err` (lines 162-163): the callback is
invoked with `errify(err)`. -/
def cbErr (v : JSVal) : List Delivery :=
  [.cbCall [errify v]]

/-- Revision B, promise-mode `next.err` (line 176): the provider's reject
is called with `errify(err)`. -/
def promErr (v : JSVal) : List Delivery :=
  [.rejectCall (errify v)]

/-- The three routes of the overloaded single-entry-point dispatch. -/
inductive Route where
  | wrapRoute
  | errRoute
  | okRoute
deriving Repr, DecidableEq

/-- Revision B `_next` (lines 210-220): dispatch on the first argument —
`instanceof Function` routes to `next.wrap`, else `instanceof Error` routes
to `next.err`, else everything routes to `next.ok`. -/
def nextRoute (vs : List JSVal) : Route :=
  let r := vs.headD .undefv
  if isCallable r then .wrapRoute
  else if isErrorKind r then .errRoute
  else .okRoute

/-- Revision B, callback mode, deliveries produced by calling the handle
itself: the wrap route returns a decorated function without delivering
anything; the err route delivers `errify` of the first argument; the ok
route invokes the callback with `(undefined, ...arguments)` (lines
164-165, 210-220). -/
def nextCb (vs : List JSVal) : List Delivery :=
  match nextRoute vs with
  | .wrapRoute => []
  | .errRoute => cbErr (vs.headD .undefv)
  | .okRoute => [.cbCall (.undefv :: vs)]

end RevB

/-- `_wrap` (revision A lines 60-67, identical in revision B lines
189-196): the decorated callback runs `fn` with its received arguments;
a thrown value `x` is caught and produces the single handle call
`next.err(x)`; a normal return produces no handle call. `fnB` is the
behaviour of the decorated function on each argument list. -/
def wrapRun (fnB : List JSVal → FnRes) (a : List JSVal) : List BodyAct :=
  match fnB a with
  | .ret _ => []
  | .thrown x => [.errCall x]

/-- Modelled from the spec: the v0.3.0 `next.wrap` variant (History.md
v0.3.0, spec section 4.2 Design Notes), whose implementation is not in
`src/index.js` (all three bundled revisions carry the catch-only body);
it additionally treats a truthy first call argument of the decorated
callback as an error and routes it to `err`. -/
def wrapArgCheck (fnB : List JSVal → FnRes) (a : List JSVal) : List BodyAct :=
  if truthy (a.headD .undefv) then [.errCall (a.headD .undefv)]
  else
    match fnB a with
    | .ret _ => []
    | .thrown x => [.errCall x]

/-- Modelled from the spec: `next.cwrap` (History.md v0.3.1, spec Design
Notes), whose implementation is not in `src/index.js`; the catch-only
variant that performs no inspection of the decorated callback's arguments
and only catches thrown exceptions. -/
def cwrapRun (fnB : List JSVal → FnRes) (a : List JSVal) : List BodyAct :=
  match fnB a with
  | .ret _ => []
  | .thrown x => [.errCall x]

theorem deliveries_map_deliverEv (ds : List Delivery) :
    deliveries (ds.map Event.deliverEv) = ds := by
  induction ds with
  | nil => rfl
  | cons d ds ih => simp [deliveries, List.filterMap] at ih ⊢; exact ih

theorem deliveries_append (s t : List Event) :
    deliveries (s ++ t) = deliveries s ++ deliveries t := by
  simp [deliveries, List.filterMap_append]

theorem deliveries_cb_trace (b : Body) :
    deliveries (Event.bodyStarted ::
        (RevA.invokeCbDeliveries b).map Event.deliverEv ++ [Event.callReturned])
      = RevA.invokeCbDeliveries b := by
  show deliveries (Event.bodyStarted ::
      ((RevA.invokeCbDeliveries b).map Event.deliverEv ++ [Event.callReturned]))
    = RevA.invokeCbDeliveries b
  rw [show (Event.bodyStarted ::
      ((RevA.invokeCbDeliveries b).map Event.deliverEv ++ [Event.callReturned]))
    = [Event.bodyStarted] ++ (RevA.invokeCbDeliveries b).map Event.deliverEv
        ++ [Event.callReturned] by simp]
  rw [deliveries_append, deliveries_append, deliveries_map_deliverEv]
  simp [deliveries]

theorem deliveries_prom_trace (b : Body) :
    deliveries (Event.callReturned :: Event.bodyStarted ::
        (RevA.invokePromDeliveries b).map Event.deliverEv)
      = RevA.invokePromDeliveries b := by
  rw [show (Event.callReturned :: Event.bodyStarted ::
      (RevA.invokePromDeliveries b).map Event.deliverEv)
    = [Event.callReturned, Event.bodyStarted]
        ++ (RevA.invokePromDeliveries b).map Event.deliverEv by simp]
  rw [deliveries_append, deliveries_map_deliverEv]
  simp [deliveries]

theorem adaptedCall_cb (hp : Bool) (args : List JSVal) (b : Body)
    (h : selectMode args = Mode.callbackMode) :
    RevA.adaptedCall hp args b = Except.ok
      { forwarded := leadingArgs args,
        trace := Event.bodyStarted ::
          (RevA.invokeCbDeliveries b).map Event.deliverEv ++ [Event.callReturned],
        ret := RetVal.value (RevA.invokeReturn b) } := by
  unfold RevA.adaptedCall
  rw [h]

theorem adaptedCall_prom (args : List JSVal) (b : Body)
    (h : selectMode args = Mode.promiseMode) :
    RevA.adaptedCall true args b = Except.ok
      { forwarded := leadingArgs args,
        trace := Event.callReturned :: Event.bodyStarted ::
          (RevA.invokePromDeliveries b).map Event.deliverEv,
        ret := RetVal.promiseObj } := by
  unfold RevA.adaptedCall
  rw [h]
  rfl

/-- Claim C1, code-bug evidence. The completion handle of revision A (the
first revision of `src/index.js`, whose doc comment at lines 70-80 states
the three-way dispatch) forwards every single-argument call — here an
`Error` instance — to `next.ok`, so a callback-mode caller receives
`(undefined, error)` instead of `(error)`. Revision B's `_next` (lines
210-220) implements the dispatch exactly as the claim states: callable
routes to wrap, error-kind to err, anything else to ok, checked in that
priority order. -/
theorem c1_next_dispatch_bug :
    RevA.adaptedCall true [JSVal.funcv 0]
        { acts := [BodyAct.nextCall [JSVal.errObj (JSVal.strv "Uh oh")]],
          res := FnRes.ret JSVal.undefv }
      = Except.ok
          { forwarded := [],
            trace := [Event.bodyStarted,
                      Event.deliverEv (Delivery.cbCall
                        [JSVal.undefv, JSVal.errObj (JSVal.strv "Uh oh")]),
                      Event.callReturned],
            ret := RetVal.value JSVal.undefv }
    ∧ RevB.nextRoute [JSVal.errObj (JSVal.strv "Uh oh")] = RevB.Route.errRoute
    ∧ RevB.nextRoute [JSVal.funcv 1] = RevB.Route.wrapRoute
    ∧ RevB.nextRoute [JSVal.strv "hi"] = RevB.Route.okRoute
    ∧ RevB.nextCb [JSVal.errObj (JSVal.strv "Uh oh")]
        = [Delivery.cbCall [JSVal.errObj (JSVal.strv "Uh oh")]] := by
  exact ⟨rfl, rfl, rfl, rfl, rfl⟩

/-- Claim C2, code-bug evidence. In revision A (the first revision of
`src/index.js`) an explicit `next.err("Oops")` and a synchronous
`throw "boom"` both deliver the raw non-error value to the external
callback's first parameter — no normalization, contradicting
`src/test/test.coffee` (the `.err` test expects an `Error` instance with
message `"Oops"`). Revision B normalizes exactly as the claim states:
non-error values are coerced by `errify` into an error-kind value carrying
the original as payload, and already-error-kind values pass through
unchanged, in both callback and promise delivery. -/
theorem c2_err_normalization_bug :
    RevA.adaptedCall true [JSVal.funcv 0]
        { acts := [BodyAct.errCall (JSVal.strv "Oops")], res := FnRes.ret JSVal.undefv }
      = Except.ok
          { forwarded := [],
            trace := [Event.bodyStarted,
                      Event.deliverEv (Delivery.cbCall [JSVal.strv "Oops"]),
                      Event.callReturned],
            ret := RetVal.value JSVal.undefv }
    ∧ isErrorKind (JSVal.strv "Oops") = false
    ∧ RevA.adaptedCall true [JSVal.funcv 0]
        { acts := [], res := FnRes.thrown (JSVal.strv "boom") }
      = Except.ok
          { forwarded := [],
            trace := [Event.bodyStarted,
                      Event.deliverEv (Delivery.cbCall [JSVal.strv "boom"]),
                      Event.callReturned],
            ret := RetVal.value JSVal.undefv }
    ∧ RevB.cbErr (JSVal.strv "Oops")
        = [Delivery.cbCall [JSVal.errObj (JSVal.strv "Oops")]]
    ∧ RevB.promErr (JSVal.strv "Oops")
        = [Delivery.rejectCall (JSVal.errObj (JSVal.strv "Oops"))]
    ∧ RevB.cbErr (JSVal.errObj (JSVal.strv "boom"))
        = [Delivery.cbCall [JSVal.errObj (JSVal.strv "boom")]] := by
  exact ⟨rfl, rfl, rfl, rfl, rfl, rfl⟩

/-- Claim C3: an original function that calls `ok(v)` synchronously and
returns normally makes a callback-mode caller's callback receive
`(undefined, v)` and makes a promise-mode caller's promise resolve with
`v`. -/
theorem c3_ok_sync_delivery (v w : JSVal) (args : List JSVal) (b : Body)
    (hacts : b.acts = [BodyAct.okCall [v]]) (hres : b.res = FnRes.ret w) :
    (selectMode args = Mode.callbackMode →
      ∃ eff, RevA.adaptedCall true args b = Except.ok eff ∧
        deliveries eff.trace = [Delivery.cbCall [JSVal.undefv, v]]) ∧
    (selectMode args = Mode.promiseMode →
      ∃ eff, RevA.adaptedCall true args b = Except.ok eff ∧
        deliveries eff.trace = [Delivery.resolveCall [v]]) := by
  constructor
  · intro h
    refine ⟨_, adaptedCall_cb true args b h, ?_⟩
    rw [deliveries_cb_trace]
    simp [RevA.invokeCbDeliveries, hacts, hres, RevA.cbDeliver]
  · intro h
    refine ⟨_, adaptedCall_prom args b h, ?_⟩
    rw [deliveries_prom_trace]
    simp [RevA.invokePromDeliveries, hacts, hres, RevA.promDeliver]

/-- Claim C4: in promise mode the adapted call returns the promise object
to its caller before the original function body begins executing —
`callReturned` is the very first event of the trace, no `bodyStarted`
event precedes the return, and the body does run later (its execution is
deferred by `immediate(invoke)` to the next scheduler tick). -/
theorem c4_promise_defers (args : List JSVal) (b : Body)
    (h : selectMode args = Mode.promiseMode) :
    ∃ eff, RevA.adaptedCall true args b = Except.ok eff ∧
      eff.trace.head? = some Event.callReturned ∧
      Event.bodyStarted ∉ preReturn eff.trace ∧
      Event.bodyStarted ∈ eff.trace := by
  refine ⟨_, adaptedCall_prom args b h, rfl, ?_, ?_⟩
  · rw [show preReturn (Event.callReturned :: Event.bodyStarted ::
        (RevA.invokePromDeliveries b).map Event.deliverEv) = [] from rfl]
    exact List.not_mem_nil _
  · simp

/-- Claim C5: a promise-mode call with no Promise Provider configured
throws the configuration `Error` synchronously at call time (modelled as
`Except.error`): no `CallEffect` is produced at all, so no event trace, no
scheduled body execution, and no delivery through the callback or promise
completion channel. -/
theorem c5_no_provider_throws (args : List JSVal) (b : Body)
    (h : selectMode args = Mode.promiseMode) :
    RevA.adaptedCall false args b
      = Except.error
          (JSVal.errObj (JSVal.strv "No promises support (defer.promise not defined)")) := by
  simp [RevA.adaptedCall, h]

/-- Claim C6: if `fn` thrown `x` when invoked with argument list `a`, the
decorated callback `wrap(fn)` invoked with `a` makes exactly one `err`
handle call carrying `x` — whose delivery under the errify wiring is the
normalization `errify x` — and no `ok` call; when `fn` returns normally
the decorator makes no implicit handle call at all. -/
theorem c6_wrap_roundtrip (fnB : List JSVal → FnRes) (a : List JSVal) (x : JSVal)
    (h : fnB a = FnRes.thrown x) :
    wrapRun fnB a = [BodyAct.errCall x] ∧
    RevB.cbErr x = [Delivery.cbCall [errify x]] ∧
    (∀ (a2 : List JSVal) (w : JSVal), fnB a2 = FnRes.ret w → wrapRun fnB a2 = []) := by
  refine ⟨by simp [wrapRun, h], rfl, ?_⟩
  intro a2 w hw
  simp [wrapRun, hw]

/-- Claim C7, counterexample. A promise-mode call with two non-callable
arguments forwards only the first argument to the original function: the
adapter unconditionally slices off the last argument (index.js line 17)
before the mode branch, so in promise mode the arguments are NOT all
forwarded — the last one is dropped and replaced by the completion
handle. -/
theorem c7_promise_drops_last_arg :
    RevA.adaptedCall true [JSVal.strv "a", JSVal.strv "b"]
        { acts := [], res := FnRes.ret JSVal.undefv }
      = Except.ok
          { forwarded := [JSVal.strv "a"],
            trace := [Event.callReturned, Event.bodyStarted],
            ret := RetVal.promiseObj }
    ∧ [JSVal.strv "a"] ≠ [JSVal.strv "a", JSVal.strv "b"] := by
  exact ⟨rfl, by decide⟩

/-- Claim C7 as amended: exactly one mode is selected per invocation,
based solely on whether the last positional argument is callable (equal
last arguments give equal modes, no other heuristic), a zero-argument call
resolves to promise mode, and in BOTH modes the original function receives
the arguments except the last (so in promise mode the last argument is
dropped rather than forwarded). -/
theorem c7_mode_selection_amended (args args2 : List JSVal) (b : Body)
    (hlast : lastArg args = lastArg args2) :
    selectMode args = selectMode args2 ∧
    (selectMode args = Mode.callbackMode ↔ isCallable (lastArg args) = true) ∧
    selectMode ([] : List JSVal) = Mode.promiseMode ∧
    (∀ eff, RevA.adaptedCall true args b = Except.ok eff →
      eff.forwarded = leadingArgs args) := by
  refine ⟨by simp [selectMode, hlast], ?_, rfl, ?_⟩
  · constructor
    · intro hm
      by_contra hc
      simp only [Bool.not_eq_true] at hc
      simp [selectMode, hc] at hm
    · intro hc
      simp [selectMode, hc]
  · intro eff heff
    cases hsm : selectMode args
    · rw [adaptedCall_cb true args b hsm] at heff
      injection heff with h2
      rw [← h2]
    · rw [adaptedCall_prom args b hsm] at heff
      injection heff with h2
      rw [← h2]

/-- Claim C8 (spec-modelled decorator variants): the v0.3.0 `wrap` variant
treats a truthy first call argument of the decorated callback as an error
and routes it to `err`, whereas `cwrap` performs no inspection of the
decorated callback's arguments — its output depends only on the wrapped
function's own behaviour, it coincides with the catch-only `_wrap` that is
in `src/index.js`, and it only catches thrown exceptions (a throw of `x`
gives exactly one `err(x)` call, a normal return gives none). -/
theorem c8_wrap_variants (fnB : List JSVal → FnRes) (a : List JSVal)
    (htruthy : truthy (a.headD JSVal.undefv) = true) :
    wrapArgCheck fnB a = [BodyAct.errCall (a.headD JSVal.undefv)] ∧
    (∀ (l l2 : List JSVal), fnB l = fnB l2 → cwrapRun fnB l = cwrapRun fnB l2) ∧
    (∀ (l : List JSVal), cwrapRun fnB l = wrapRun fnB l) ∧
    (∀ (l : List JSVal) (x : JSVal), fnB l = FnRes.thrown x →
      cwrapRun fnB l = [BodyAct.errCall x]) ∧
    (∀ (l : List JSVal) (w : JSVal), fnB l = FnRes.ret w → cwrapRun fnB l = []) := by
  refine ⟨by unfold wrapArgCheck; rw [if_pos htruthy], ?_, ?_, ?_, ?_⟩
  · intro l l2 hb
    simp [cwrapRun, hb]
  · intro l
    rfl
  · intro l x hx
    simp [cwrapRun, hx]
  · intro l w hw
    simp [cwrapRun, hw]

/-- Claim C9: when the original function returns normally with `r`, a
callback-mode adapted call returns `r` to its own caller (`return
invoke()`); a promise-mode adapted call returns the synthesized promise
object, never the original function's return value. -/
theorem c9_return_values (args args2 : List JSVal) (b b2 : Body) (r : JSVal)
    (hm : selectMode args = Mode.callbackMode) (hr : b.res = FnRes.ret r)
    (hm2 : selectMode args2 = Mode.promiseMode) :
    (∃ eff, RevA.adaptedCall true args b = Except.ok eff ∧
      eff.ret = RetVal.value r) ∧
    (∃ eff, RevA.adaptedCall true args2 b2 = Except.ok eff ∧
      eff.ret = RetVal.promiseObj) := by
  constructor
  · refine ⟨_, adaptedCall_cb true args b hm, ?_⟩
    simp [RevA.invokeReturn, hr]
  · exact ⟨_, adaptedCall_prom args2 b2 hm2, rfl⟩

/-- Claim C10: `next.progress` is defined in callback mode but discards
every notification (a body consisting of one progress call produces no
delivery at all), while in promise mode the same body forwards the
notification to the Promise Provider's third setup parameter. -/
theorem c10_progress (vs : List JSVal) (args args2 : List JSVal) (b : Body)
    (hacts : b.acts = [BodyAct.progressCall vs]) (hres : b.res = FnRes.ret JSVal.undefv)
    (hm : selectMode args = Mode.callbackMode)
    (hm2 : selectMode args2 = Mode.promiseMode) :
    (∃ eff, RevA.adaptedCall true args b = Except.ok eff ∧
      deliveries eff.trace = []) ∧
    (∃ eff, RevA.adaptedCall true args2 b = Except.ok eff ∧
      deliveries eff.trace = [Delivery.progressNotify vs]) := by
  constructor
  · refine ⟨_, adaptedCall_cb true args b hm, ?_⟩
    rw [deliveries_cb_trace]
    simp [RevA.invokeCbDeliveries, hacts, hres, RevA.cbDeliver]
  · refine ⟨_, adaptedCall_prom args2 b hm2, ?_⟩
    rw [deliveries_prom_trace]
    simp [RevA.invokePromDeliveries, hacts, hres, RevA.promDeliver]

/-- Witness for `c3_ok_sync_delivery` at `v = "hi"`, callback-mode call
with a single callback argument and promise-mode call with no arguments. -/
theorem c3_ok_sync_delivery_witness :
    (∃ eff, RevA.adaptedCall true [JSVal.funcv 0]
        { acts := [BodyAct.okCall [JSVal.strv "hi"]], res := FnRes.ret JSVal.undefv }
        = Except.ok eff ∧
        deliveries eff.trace = [Delivery.cbCall [JSVal.undefv, JSVal.strv "hi"]]) ∧
    (∃ eff, RevA.adaptedCall true ([] : List JSVal)
        { acts := [BodyAct.okCall [JSVal.strv "hi"]], res := FnRes.ret JSVal.undefv }
        = Except.ok eff ∧
        deliveries eff.trace = [Delivery.resolveCall [JSVal.strv "hi"]]) :=
  ⟨(c3_ok_sync_delivery (JSVal.strv "hi") JSVal.undefv [JSVal.funcv 0]
      { acts := [BodyAct.okCall [JSVal.strv "hi"]], res := FnRes.ret JSVal.undefv }
      rfl rfl).1 (by decide),
   (c3_ok_sync_delivery (JSVal.strv "hi") JSVal.undefv []
      { acts := [BodyAct.okCall [JSVal.strv "hi"]], res := FnRes.ret JSVal.undefv }
      rfl rfl).2 (by decide)⟩

/-- Witness for `c4_promise_defers` at a zero-argument call. -/
theorem c4_promise_defers_witness :
    ∃ eff, RevA.adaptedCall true ([] : List JSVal)
        { acts := [], res := FnRes.ret JSVal.undefv } = Except.ok eff ∧
      eff.trace.head? = some Event.callReturned ∧
      Event.bodyStarted ∉ preReturn eff.trace ∧
      Event.bodyStarted ∈ eff.trace :=
  c4_promise_defers [] { acts := [], res := FnRes.ret JSVal.undefv } (by decide)

/-- Witness for `c5_no_provider_throws` at a zero-argument call. -/
theorem c5_no_provider_throws_witness :
    RevA.adaptedCall false ([] : List JSVal)
        { acts := [], res := FnRes.ret JSVal.undefv }
      = Except.error
          (JSVal.errObj (JSVal.strv "No promises support (defer.promise not defined)")) :=
  c5_no_provider_throws [] { acts := [], res := FnRes.ret JSVal.undefv } (by decide)

/-- Witness for `c6_wrap_roundtrip` with a function that throws `"late"`
on every argument list. -/
theorem c6_wrap_roundtrip_witness :
    wrapRun (fun _ => FnRes.thrown (JSVal.strv "late")) [] = [BodyAct.errCall (JSVal.strv "late")] ∧
    RevB.cbErr (JSVal.strv "late") = [Delivery.cbCall [errify (JSVal.strv "late")]] ∧
    (∀ (a2 : List JSVal) (w : JSVal),
      (fun _ => FnRes.thrown (JSVal.strv "late")) a2 = FnRes.ret w →
      wrapRun (fun _ => FnRes.thrown (JSVal.strv "late")) a2 = []) :=
  c6_wrap_roundtrip (fun _ => FnRes.thrown (JSVal.strv "late")) [] (JSVal.strv "late") rfl

/-- Witness for `c7_mode_selection_amended` at two argument lists sharing
the same callable last argument. -/
theorem c7_mode_selection_amended_witness :
    selectMode [JSVal.numv 1, JSVal.funcv 0] = selectMode [JSVal.funcv 0] ∧
    (selectMode [JSVal.numv 1, JSVal.funcv 0] = Mode.callbackMode ↔
      isCallable (lastArg [JSVal.numv 1, JSVal.funcv 0]) = true) ∧
    selectMode ([] : List JSVal) = Mode.promiseMode ∧
    (∀ eff, RevA.adaptedCall true [JSVal.numv 1, JSVal.funcv 0]
        { acts := [], res := FnRes.ret JSVal.undefv } = Except.ok eff →
      eff.forwarded = leadingArgs [JSVal.numv 1, JSVal.funcv 0]) :=
  c7_mode_selection_amended [JSVal.numv 1, JSVal.funcv 0] [JSVal.funcv 0]
    { acts := [], res := FnRes.ret JSVal.undefv } (by decide)

/-- Witness for `c8_wrap_variants` with a truthy (error-object) first
argument and a non-throwing wrapped function. -/
theorem c8_wrap_variants_witness :
    wrapArgCheck (fun _ => FnRes.ret JSVal.undefv) [JSVal.errObj (JSVal.strv "uh oh")]
      = [BodyAct.errCall (([JSVal.errObj (JSVal.strv "uh oh")]).headD JSVal.undefv)] ∧
    (∀ (l l2 : List JSVal),
      (fun _ => FnRes.ret JSVal.undefv) l = (fun _ => FnRes.ret JSVal.undefv) l2 →
      cwrapRun (fun _ => FnRes.ret JSVal.undefv) l
        = cwrapRun (fun _ => FnRes.ret JSVal.undefv) l2) ∧
    (∀ (l : List JSVal), cwrapRun (fun _ => FnRes.ret JSVal.undefv) l
      = wrapRun (fun _ => FnRes.ret JSVal.undefv) l) ∧
    (∀ (l : List JSVal) (x : JSVal),
      (fun _ => FnRes.ret JSVal.undefv) l = FnRes.thrown x →
      cwrapRun (fun _ => FnRes.ret JSVal.undefv) l = [BodyAct.errCall x]) ∧
    (∀ (l : List JSVal) (w : JSVal),
      (fun _ => FnRes.ret JSVal.undefv) l = FnRes.ret w →
      cwrapRun (fun _ => FnRes.ret JSVal.undefv) l = []) :=
  c8_wrap_variants (fun _ => FnRes.ret JSVal.undefv) [JSVal.errObj (JSVal.strv "uh oh")]
    (by decide)

/-- Witness for `c9_return_values`: a callback-mode call whose body
returns `42` and a zero-argument promise-mode call. -/
theorem c9_return_values_witness :
    (∃ eff, RevA.adaptedCall true [JSVal.funcv 0]
        { acts := [], res := FnRes.ret (JSVal.numv 42) } = Except.ok eff ∧
      eff.ret = RetVal.value (JSVal.numv 42)) ∧
    (∃ eff, RevA.adaptedCall true ([] : List JSVal)
        { acts := [], res := FnRes.ret (JSVal.numv 42) } = Except.ok eff ∧
      eff.ret = RetVal.promiseObj) :=
  c9_return_values [JSVal.funcv 0] [] { acts := [], res := FnRes.ret (JSVal.numv 42) }
    { acts := [], res := FnRes.ret (JSVal.numv 42) } (JSVal.numv 42)
    (by decide) rfl (by decide)

/-- Witness for `c10_progress` at a single progress notification `"100"`. -/
theorem c10_progress_witness :
    (∃ eff, RevA.adaptedCall true [JSVal.funcv 0]
        { acts := [BodyAct.progressCall [JSVal.strv "100"]], res := FnRes.ret JSVal.undefv }
        = Except.ok eff ∧ deliveries eff.trace = []) ∧
    (∃ eff, RevA.adaptedCall true ([] : List JSVal)
        { acts := [BodyAct.progressCall [JSVal.strv "100"]], res := FnRes.ret JSVal.undefv }
        = Except.ok eff ∧
      deliveries eff.trace = [Delivery.progressNotify [JSVal.strv "100"]]) :=
  c10_progress [JSVal.strv "100"] [JSVal.funcv 0] []
    { acts := [BodyAct.progressCall [JSVal.strv "100"]], res := FnRes.ret JSVal.undefv }
    rfl rfl (by decide) (by decide)

end SafeAsync
